import Mathlib

/-!
Verification development for the RidenRD60xxMQTT bridge.

The definitions below are a shallow embedding of the Python sources:

* `src/bridge/rd60xx.py`        — register decode/encode engine (`RD60xx`)
* `src/bridge/bridge.py`        — per-device worker (`Bridge`)
* `src/bridge/rd60xx_to_mqtt.py`— orchestrator (`RD60xxToMQTT`)
* `src/bridge/psu_state.py`     — persistent per-identity state

Modelling conventions:

* Python floats are modelled as rationals (`ℚ`); all the scale arithmetic
  in the source is decimal, for which `ℚ` is exact.
* Python `int(x)` (truncation toward zero) is modelled by `pyInt`.
* A modbus session is a function from (address, count) to an optional
  register list: `none` models a raised `ModbusException`; a returned list
  of the wrong length models the "Wrong number of registered returned"
  error raised by the source.
* Mutable attributes become explicit state passed in and returned.
-/

/-- Python `int(q)`: truncation toward zero of a rational. -/
def pyInt (q : ℚ) : ℤ :=
  q.num.tdiv q.den

/-! ### Scaling tables (`RD60xx` class constants, rd60xx.py lines 295-313) -/

def FIRMWARE_SCALE : ℚ := 100

def INPUT_VOLTAGE_SCALE : ℚ := 100

def DEFAULT_VOLTAGE_SCALE : ℚ := 100

/-- `MODEL_VOLTAGE_SCALINGS = {60125 : 1000.0}` as a lookup. -/
def MODEL_VOLTAGE_SCALINGS (m : ℕ) : Option ℚ :=
  if m = 60125 then some 1000 else none

/-- `DEFAULT_CURRENT_SCALE = (100.0, False)`: (scale, uses current range). -/
def DEFAULT_CURRENT_SCALE : ℚ × Bool := (100, false)

/-- `MODEL_CURRENT_SCALINGS = {6006 : (1000.0, False), 60125 : (1000.0, True)}`. -/
def MODEL_CURRENT_SCALINGS (m : ℕ) : Option (ℚ × Bool) :=
  if m = 6006 then some (1000, false)
  else if m = 60125 then some (1000, true)
  else none

def DEFAULT_POWER_SCALE : ℚ := 100

/-- `MODEL_POWER_SCALINGS = {60125 : 1000.0}`. -/
def MODEL_POWER_SCALINGS (m : ℕ) : Option ℚ :=
  if m = 60125 then some 1000 else none

def BATT_SCALE : ℚ := 1000

/-- Voltage scale lookup (rd60xx.py lines 372-375 and 495-498): the table is
consulted with the full model register first, then with the model excluding
the hardware revision digit (`model // 10`), falling back to the default. -/
def voltage_scale (model_inc_hw_rev : ℕ) : ℚ :=
  match MODEL_VOLTAGE_SCALINGS model_inc_hw_rev with
  | some s => s
  | none => (MODEL_VOLTAGE_SCALINGS (model_inc_hw_rev / 10)).getD DEFAULT_VOLTAGE_SCALE

/-- Current scale lookup (rd60xx.py lines 376-379 and 499-502), returning
`(scale, uses_current_range)`. -/
def current_scale_pair (model_inc_hw_rev : ℕ) : ℚ × Bool :=
  match MODEL_CURRENT_SCALINGS model_inc_hw_rev with
  | some s => s
  | none => (MODEL_CURRENT_SCALINGS (model_inc_hw_rev / 10)).getD DEFAULT_CURRENT_SCALE

/-- Power scale lookup (rd60xx.py lines 380-383). -/
def power_scale (model_inc_hw_rev : ℕ) : ℚ :=
  match MODEL_POWER_SCALINGS model_inc_hw_rev with
  | some s => s
  | none => (MODEL_POWER_SCALINGS (model_inc_hw_rev / 10)).getD DEFAULT_POWER_SCALE

/-- Current scale before the range register is applied
(`current_scale_without_range`, rd60xx.py line 389). -/
def current_scale_base (model : ℕ) : ℚ :=
  (current_scale_pair model).1

/-- Whether the model consults the live `CURRENT_RANGE` register. -/
def uses_current_range (model : ℕ) : Bool :=
  (current_scale_pair model).2

/-- Effective current scale after applying the live current range register
(rd60xx.py lines 392-395 and 508-515): range = 0 multiplies the scale by 10
on models that use the range register. -/
def current_scale_ranged (model current_range : ℕ) : ℚ :=
  if uses_current_range model ∧ current_range = 0 then
    current_scale_base model * 10
  else
    current_scale_base model

/-! ### Per-field setpoint encode/decode

`RD60xx.set_state` (rd60xx.py lines 484-573) scales each supplied field by
`int(value * scale)` and writes it to a register; `RD60xx.get_state`
(lines 344-442) divides the corresponding register by a scale.  The pairs
below record, for each setpoint field, the scale used on each side:

* voltage setpoint — encode `int(v * voltage_scale)` (line 520),
  decode `reg / voltage_scale` (line 418);
* current setpoint — encode `int(c * current_scale)` with the range applied
  (line 524), decode `reg / current_scale` with the range applied (line 419);
* OVP — encode `int(ovp * voltage_scale)` (line 550),
  decode `reg / voltage_scale` (line 420);
* OCP — encode `int(ocp * current_scale)` with the range applied (line 554),
  decode `reg / current_scale_without_range` (line 421).
-/

def encode_voltage_set (model : ℕ) (v : ℚ) : ℤ :=
  pyInt (v * voltage_scale model)

def decode_voltage_set (model : ℕ) (reg : ℤ) : ℚ :=
  (reg : ℚ) / voltage_scale model

def encode_current_set (model current_range : ℕ) (c : ℚ) : ℤ :=
  pyInt (c * current_scale_ranged model current_range)

def decode_current_set (model current_range : ℕ) (reg : ℤ) : ℚ :=
  (reg : ℚ) / current_scale_ranged model current_range

def encode_ovp (model : ℕ) (x : ℚ) : ℤ :=
  pyInt (x * voltage_scale model)

def decode_ovp (model : ℕ) (reg : ℤ) : ℚ :=
  (reg : ℚ) / voltage_scale model

def encode_ocp (model current_range : ℕ) (x : ℚ) : ℤ :=
  pyInt (x * current_scale_ranged model current_range)

def decode_ocp (model : ℕ) (reg : ℤ) : ℚ :=
  (reg : ℚ) / current_scale_base model

/-- A record of the four setpoint fields of a `RD60xxStateSet`. -/
structure Setpoints where
  voltage : ℚ
  current : ℚ
  ovp : ℚ
  ocp : ℚ
  deriving Repr, DecidableEq

/-- Claim C1 as stated: decoding the encoded setpoints recovers each value
within one scale-unit of integer-truncation rounding. -/
def SetpointRoundTrip (model current_range : ℕ) (x : Setpoints) : Prop :=
  |decode_voltage_set model (encode_voltage_set model x.voltage) - x.voltage|
      < 1 / voltage_scale model ∧
  |decode_current_set model current_range
      (encode_current_set model current_range x.current) - x.current|
      < 1 / current_scale_ranged model current_range ∧
  |decode_ovp model (encode_ovp model x.ovp) - x.ovp| < 1 / voltage_scale model ∧
  |decode_ocp model (encode_ocp model current_range x.ocp) - x.ocp|
      < 1 / current_scale_base model

/-! ### Modbus session model and register map -/

/-- A modbus session: maps (address, count) to the registers returned by
`read_holding_registers`, or `none` for a raised `ModbusException`. -/
def Session : Type :=
  ℕ → ℕ → Option (List ℕ)

/-- One `read_holding_registers` call followed by the source's explicit
length check (`if len(regs) != read_count: raise ...`). -/
def read_regs (session : Session) (addr count : ℕ) : Option (List ℕ) :=
  match session addr count with
  | none => none
  | some regs => if regs.length = count then some regs else none

/-! Register addresses from the `RD60xxRegisters` enum (rd60xx.py 237-290). -/

def REG_MODEL : ℕ := 0

def REG_SERIAL_HI : ℕ := 1

def REG_SERIAL_LO : ℕ := 2

def REG_FIRMWARE : ℕ := 3

def REG_TEMP_C_SIGN : ℕ := 4

def REG_TEMP_C_VALUE : ℕ := 5

def REG_TEMP_F_SIGN : ℕ := 6

def REG_TEMP_F_VALUE : ℕ := 7

def REG_OUTPUT_VOLTAGE_SET : ℕ := 8

def REG_OUTPUT_CURRENT_SET : ℕ := 9

def REG_OUTPUT_VOLTAGE_DISP : ℕ := 10

def REG_OUTPUT_CURRENT_DISP : ℕ := 11

def REG_OUTPUT_POWER_DISP_HI : ℕ := 12

def REG_OUTPUT_POWER_DISP_LO : ℕ := 13

def REG_INPUT_VOLTAGE : ℕ := 14

def REG_PROTECTION_STATUS : ℕ := 16

def REG_OUTPUT_MODE : ℕ := 17

def REG_OUTPUT_ENABLE : ℕ := 18

def REG_PRESET : ℕ := 19

def REG_CURRENT_RANGE : ℕ := 20

def REG_BATTERY_MODE : ℕ := 32

def REG_BATTERY_VOLTAGE : ℕ := 33

def REG_EXT_TEMP_C_SIGN : ℕ := 34

def REG_EXT_TEMP_C_VALUE : ℕ := 35

def REG_EXT_TEMP_F_SIGN : ℕ := 36

def REG_EXT_TEMP_F_VALUE : ℕ := 37

def REG_BATT_AH_HI : ℕ := 38

def REG_BATT_AH_LO : ℕ := 39

def REG_BATT_WH_HI : ℕ := 40

def REG_BATT_WH_LO : ℕ := 41

def REG_M0_V : ℕ := 80

def REG_M0_C : ℕ := 81

def REG_M0_OVP : ℕ := 82

def REG_M0_OCP : ℕ := 83

def REG_M1_V : ℕ := 84

def REG_M9_OCP : ℕ := 119

/-- `BATT_WH_LO - MODEL + 1 = 42`: size of the main state block read. -/
def STATE_READ_COUNT : ℕ := REG_BATT_WH_LO - REG_MODEL + 1

/-- `M9_OCP - M1_V + 1 = 36`: size of the preset block read. -/
def PRESET_READ_COUNT : ℕ := REG_M9_OCP - REG_M1_V + 1

def PRESET_READ_INTERVAL : ℚ := 5

/-! ### Preset decode (`RD60xx._read_presets`, rd60xx.py 444-482) -/

/-- One decoded preset: (voltage, current, ovp, ocp). -/
abbrev Preset : Type := ℚ × ℚ × ℚ × ℚ

/-- The preset cache owned by one `RD60xx` instance
(`self._presets`, `self._presets_last_read`). -/
structure PresetCache where
  presets : Option (List Preset)
  last_read : ℚ
  deriving Repr, DecidableEq

/-- The `for i in range(0, len(regs), 4)` loop of `_read_presets`: groups of
four registers scaled to (voltage, current, ovp, ocp) tuples. -/
def preset_chunks (vs cs : ℚ) : List ℕ → List Preset
  | v :: c :: o :: p :: rest =>
      ((v : ℚ) / vs, (c : ℚ) / cs, (o : ℚ) / vs, (p : ℚ) / cs) :: preset_chunks vs cs rest
  | _ => []

/-- The refresh condition of `_read_presets` (rd60xx.py line 454):
`elapsed_time > PRESET_READ_INTERVAL or self._presets is None`. -/
def RefreshDue (cache : PresetCache) (now : ℚ) : Prop :=
  now - cache.last_read > PRESET_READ_INTERVAL ∨ cache.presets = none

instance (cache : PresetCache) (now : ℚ) : Decidable (RefreshDue cache now) := by
  unfold RefreshDue
  infer_instance

/-- `RD60xx._read_presets`: refresh the cache when stale (elapsed > 5 s) or
empty, by one 36-register read.  Returns `none` if that read raised (the
exception aborts the surrounding `get_state`), plus the reads issued. -/
def read_presets (session : Session) (vs cs : ℚ) (cache : PresetCache) (now : ℚ) :
    Option PresetCache × List (ℕ × ℕ) :=
  if RefreshDue cache now then
    match read_regs session REG_M1_V PRESET_READ_COUNT with
    | none => (none, [(REG_M1_V, PRESET_READ_COUNT)])
    | some regs => (some ⟨some (preset_chunks vs cs regs), now⟩, [(REG_M1_V, PRESET_READ_COUNT)])
  else
    (some cache, [])

/-! ### `RD60xx.get_state` (rd60xx.py 344-442) -/

/-- The decoded device state (`RD60xxStateGet`).  `firmware_version` keeps
the numeric value `register / 100`; Python renders it with `str`. -/
structure RD60xxStateGet where
  model : ℕ
  serial_no : ℕ
  firmware_version : ℚ
  temp_c : ℤ
  temp_f : ℤ
  current_range : ℕ
  output_voltage_set : ℚ
  output_current_set : ℚ
  ovp : ℚ
  ocp : ℚ
  output_voltage_disp : ℚ
  output_current_disp : ℚ
  output_power_disp : ℚ
  input_voltage : ℚ
  protection_status : ℕ
  output_mode : ℕ
  output_enable : Bool
  battery_mode : Bool
  battery_voltage : ℚ
  ext_temp_c : ℤ
  ext_temp_f : ℤ
  batt_ah : ℚ
  batt_wh : ℚ
  presets : List Preset
  deriving Repr, DecidableEq

/-- Result of one `get_state` call: the optional snapshot (`None` on any
failure), the preset cache afterwards, and the reads issued. -/
structure GetResult where
  state : Option RD60xxStateGet
  cache : PresetCache
  reads : List (ℕ × ℕ)

/-- `RD60xx.get_state`: read the 42-register state block, the M0 OVP/OCP
pair, refresh presets if due, and decode; any failure yields no snapshot
(the `except` clause returns `None`) and leaves the preset cache unchanged. -/
def get_state (session : Session) (cache : PresetCache) (now : ℚ) : GetResult :=
  match read_regs session REG_MODEL STATE_READ_COUNT with
  | none => ⟨none, cache, [(REG_MODEL, STATE_READ_COUNT)]⟩
  | some regsA =>
    let geta : ℕ → ℕ := fun r => regsA.getD (r - REG_MODEL) 0
    let get32a : ℕ → ℕ → ℕ := fun hi lo => Nat.lor ((geta hi) <<< 16) (geta lo)
    let temp : ℕ → ℕ → ℤ := fun sign val => (if geta sign = 1 then -1 else 1) * (geta val : ℤ)
    let model := geta REG_MODEL
    let vs := voltage_scale model
    let cs := current_scale_ranged model (geta REG_CURRENT_RANGE)
    match read_regs session REG_M0_OVP 2 with
    | none => ⟨none, cache, [(REG_MODEL, STATE_READ_COUNT), (REG_M0_OVP, 2)]⟩
    | some regsB =>
      let getb : ℕ → ℕ := fun r => regsB.getD (r - REG_M0_OVP) 0
      match read_presets session vs cs cache now with
      | (none, preads) =>
          ⟨none, cache, [(REG_MODEL, STATE_READ_COUNT), (REG_M0_OVP, 2)] ++ preads⟩
      | (some cache2, preads) =>
          ⟨some {
              model := model
              serial_no := get32a REG_SERIAL_HI REG_SERIAL_LO
              firmware_version := (geta REG_FIRMWARE : ℚ) / FIRMWARE_SCALE
              temp_c := temp REG_TEMP_C_SIGN REG_TEMP_C_VALUE
              temp_f := temp REG_TEMP_F_SIGN REG_TEMP_F_VALUE
              current_range := geta REG_CURRENT_RANGE
              output_voltage_set := (geta REG_OUTPUT_VOLTAGE_SET : ℚ) / vs
              output_current_set := (geta REG_OUTPUT_CURRENT_SET : ℚ) / cs
              ovp := (getb REG_M0_OVP : ℚ) / vs
              ocp := (getb REG_M0_OCP : ℚ) / current_scale_base model
              output_voltage_disp := (geta REG_OUTPUT_VOLTAGE_DISP : ℚ) / vs
              output_current_disp := (geta REG_OUTPUT_CURRENT_DISP : ℚ) / cs
              output_power_disp :=
                (get32a REG_OUTPUT_POWER_DISP_HI REG_OUTPUT_POWER_DISP_LO : ℚ) / power_scale model
              input_voltage := (geta REG_INPUT_VOLTAGE : ℚ) / INPUT_VOLTAGE_SCALE
              protection_status := geta REG_PROTECTION_STATUS
              output_mode := geta REG_OUTPUT_MODE
              output_enable := geta REG_OUTPUT_ENABLE ≠ 0
              battery_mode := geta REG_BATTERY_MODE ≠ 0
              battery_voltage := (geta REG_BATTERY_VOLTAGE : ℚ) / vs
              ext_temp_c := temp REG_EXT_TEMP_C_SIGN REG_EXT_TEMP_C_VALUE
              ext_temp_f := temp REG_EXT_TEMP_F_SIGN REG_EXT_TEMP_F_VALUE
              batt_ah := (get32a REG_BATT_AH_HI REG_BATT_AH_LO : ℚ) / BATT_SCALE
              batt_wh := (get32a REG_BATT_WH_HI REG_BATT_WH_LO : ℚ) / BATT_SCALE
              presets := cache2.presets.getD [] },
            cache2,
            [(REG_MODEL, STATE_READ_COUNT), (REG_M0_OVP, 2)] ++ preads⟩

/-! ### `RD60xx.set_state` (rd60xx.py 484-573) -/

/-- The sparse write request (`RD60xxStateSet`). -/
structure RD60xxStateSet where
  preset_index : Option ℤ := none
  output_voltage_set : Option ℚ := none
  output_current_set : Option ℚ := none
  ovp : Option ℚ := none
  ocp : Option ℚ := none
  output_enable : Option Bool := none
  output_toggle : Option Bool := none
  deriving Repr, DecidableEq

/-- A register write: `write_register` or `write_registers`. -/
inductive WriteOp where
  | single (addr : ℕ) (value : ℤ)
  | multi (addr : ℕ) (values : List ℤ)
  deriving Repr, DecidableEq

/-- Result of one `set_state` call: the writes performed in order, whether
the call ran to completion (`false` when a register read raised, aborting
the remainder), and the reads issued. -/
structure SetResult where
  writes : List WriteOp
  ok : Bool
  reads : List (ℕ × ℕ)
  deriving Repr

/-- `RD60xx.set_state`: read the model register (and the current-range
register on switchable-range models), scale the supplied fields by
`int(value * scale)`, and issue the writes in source order.  Note the reads
here have no length check in the source; a short response is modelled by
`List.getD` defaulting to 0. -/
def set_state (session : Session) (st : RD60xxStateSet) : SetResult :=
  match session REG_MODEL 1 with
  | none => ⟨[], false, [(REG_MODEL, 1)]⟩
  | some regs0 =>
    let model := regs0.getD 0 0
    let vs := voltage_scale model
    let afterRange : ℕ → List (ℕ × ℕ) → SetResult := fun current_range reads =>
      let cs := current_scale_ranged model current_range
      let w1 : List WriteOp :=
        match st.preset_index with
        | some idx => [WriteOp.single REG_PRESET idx]
        | none => []
      let w2 : List WriteOp :=
        match st.output_voltage_set, st.output_current_set with
        | some v, some c => [WriteOp.multi REG_M0_V [pyInt (v * vs), pyInt (c * cs)]]
        | some v, none => [WriteOp.single REG_M0_V (pyInt (v * vs))]
        | none, some c => [WriteOp.single REG_M0_C (pyInt (c * cs))]
        | none, none => []
      let w3 : List WriteOp :=
        match st.ovp with
        | some x => [WriteOp.single REG_M0_OVP (pyInt (x * vs))]
        | none => []
      let w4 : List WriteOp :=
        match st.ocp with
        | some x => [WriteOp.single REG_M0_OCP (pyInt (x * cs))]
        | none => []
      let w5 : List WriteOp :=
        match st.output_enable with
        | some b => [WriteOp.single REG_OUTPUT_ENABLE (if b then 1 else 0)]
        | none => []
      match st.output_toggle with
      | some true =>
        match session REG_OUTPUT_ENABLE 1 with
        | none => ⟨w1 ++ w2 ++ w3 ++ w4 ++ w5, false, reads ++ [(REG_OUTPUT_ENABLE, 1)]⟩
        | some regsE =>
          let v := regsE.getD 0 0
          ⟨w1 ++ w2 ++ w3 ++ w4 ++ w5 ++
              [WriteOp.single REG_OUTPUT_ENABLE (if v = 0 then 1 else 0)],
            true, reads ++ [(REG_OUTPUT_ENABLE, 1)]⟩
      | _ => ⟨w1 ++ w2 ++ w3 ++ w4 ++ w5, true, reads⟩
    if uses_current_range model then
      match session REG_CURRENT_RANGE 1 with
      | none => ⟨[], false, [(REG_MODEL, 1), (REG_CURRENT_RANGE, 1)]⟩
      | some regsR => afterRange (regsR.getD 0 0) [(REG_MODEL, 1), (REG_CURRENT_RANGE, 1)]
    else
      afterRange 1 [(REG_MODEL, 1)]

/-! ### Applying writes to a register file -/

/-- A device's register file. -/
abbrev Regs : Type := ℕ → ℕ

/-- Store one written value (register values are natural; the device side
would reject a negative write, `Int.toNat` models the nonnegative case). -/
def write_at (regs : Regs) (addr : ℕ) (v : ℤ) : Regs :=
  fun a => if a = addr then v.toNat else regs a

/-- `write_registers`: consecutive values starting at `addr`. -/
def write_multi (regs : Regs) (addr : ℕ) : List ℤ → Regs
  | [] => regs
  | v :: rest => write_multi (write_at regs addr v) (addr + 1) rest

def apply_write (regs : Regs) : WriteOp → Regs
  | WriteOp.single addr v => write_at regs addr v
  | WriteOp.multi addr vs => write_multi regs addr vs

def apply_writes (regs : Regs) (ws : List WriteOp) : Regs :=
  ws.foldl apply_write regs

/-- The session presented by a live device with register file `regs`:
every read succeeds and returns exactly `count` registers. -/
def session_of (regs : Regs) : Session :=
  fun addr count => some ((List.range count).map fun i => regs (addr + i))

/-- A device whose model register reads 60301 and whose other registers are
zero (the scenario of claim C2). -/
def preset_cex_regs : Regs :=
  fun a => if a = 0 then 60301 else 0

/-! ### Published state message (`Bridge._get_state`, bridge.py 232-298) -/

/-- `protection_status` rendering (bridge.py 260-269). -/
def protection_status_str (p : ℕ) : String :=
  if p = 0 then "normal" else if p = 1 then "ovp" else if p = 2 then "ocp" else "unknown"

/-- `output_mode` rendering (bridge.py 270-277). -/
def output_mode_str (m : ℕ) : String :=
  if m = 0 then "cv" else if m = 1 then "cc" else "unknown"

/-- One preset entry of the outbound message (bridge.py 285-292). -/
structure PresetMsg where
  v : ℚ
  c : ℚ
  ovp : ℚ
  ocp : ℚ
  deriving Repr, DecidableEq

/-- The outbound state message assembled by `Bridge._get_state`. -/
structure StateMsg where
  connected : Bool
  period : Option ℚ
  model : ℕ
  serial_no : ℕ
  firmware_version : ℚ
  temp_c : ℤ
  temp_f : ℤ
  current_range : ℕ
  output_voltage_set : ℚ
  output_current_set : ℚ
  ovp : ℚ
  ocp : ℚ
  output_voltage_disp : ℚ
  output_current_disp : ℚ
  output_power_disp : ℚ
  input_voltage : ℚ
  protection_status : String
  output_mode : String
  output_enable : Bool
  battery_mode : Bool
  battery_voltage : ℚ
  ext_temp_c : ℤ
  ext_temp_f : ℤ
  batt_ah : ℚ
  batt_wh : ℚ
  presets : List PresetMsg
  deriving Repr, DecidableEq

/-- Assemble the outbound message from a snapshot (bridge.py 240-292).
`period` is the live `update_period` attribute of the persistent state. -/
def build_state_msg (period : Option ℚ) (s : RD60xxStateGet) : StateMsg :=
  { connected := true
    period := period
    model := s.model
    serial_no := s.serial_no
    firmware_version := s.firmware_version
    temp_c := s.temp_c
    temp_f := s.temp_f
    current_range := s.current_range
    output_voltage_set := s.output_voltage_set
    output_current_set := s.output_current_set
    ovp := s.ovp
    ocp := s.ocp
    output_voltage_disp := s.output_voltage_disp
    output_current_disp := s.output_current_disp
    output_power_disp := s.output_power_disp
    input_voltage := s.input_voltage
    protection_status := protection_status_str s.protection_status
    output_mode := output_mode_str s.output_mode
    output_enable := s.output_enable
    battery_mode := s.battery_mode
    battery_voltage := s.battery_voltage
    ext_temp_c := s.ext_temp_c
    ext_temp_f := s.ext_temp_f
    batt_ah := s.batt_ah
    batt_wh := s.batt_wh
    presets := s.presets.map fun x => ⟨x.1, x.2.1, x.2.2.1, x.2.2.2⟩ }

/-! ### C5: failed polls yield nothing and do not kill the worker -/

/-- Worker liveness: `faulted` models the worker task ending. -/
inductive WorkerStatus where
  | running
  | faulted
  deriving Repr, DecidableEq

/-- The mutable state the poll path touches: the `RD60xx` preset cache, the
`Bridge._last_query_time` stamp, and the task's liveness. -/
structure PollWorker where
  cache : PresetCache
  last_query_time : ℚ
  status : WorkerStatus
  deriving DecidableEq

/-- `Bridge._get_state` (bridge.py 232-298) as one poll step: query the unit;
on success publish one message and stamp the query time; on failure (the
query returned `None`) publish nothing and change nothing.  `get_state`
catches every exception internally, so the step never faults the worker. -/
def worker_get (session : Session) (period : Option ℚ) (w : PollWorker) (now : ℚ) :
    PollWorker × List StateMsg :=
  let r := get_state session w.cache now
  match r.state with
  | some s => ({ w with cache := r.cache, last_query_time := now }, [build_state_msg period s])
  | none => ({ w with cache := r.cache }, [])

/-- A successful register read of the expected length. -/
def read_ok (session : Session) (addr count : ℕ) : Prop :=
  ∃ regs, session addr count = some regs ∧ regs.length = count

/-- A dead session: every read raises. -/
def dead_session : Session :=
  fun _ _ => none

/-! ### Inbound JSON payloads and `Bridge._set_state` (bridge.py 187-230) -/

/-- The JSON scalar values our payload model carries.  Values of other JSON
types (strings, objects) make the source's coercions raise and the whole
command be discarded; they are outside this model. -/
inductive Json where
  | num (q : ℚ)
  | bool (b : Bool)
  deriving Repr, DecidableEq

/-- Python `float(...)` on a JSON number or boolean. -/
def py_float : Json → ℚ
  | Json.num q => q
  | Json.bool b => if b then 1 else 0

/-- Python `int(...)` on a JSON number or boolean (truncation toward zero). -/
def py_int : Json → ℤ
  | Json.num q => pyInt q
  | Json.bool b => if b then 1 else 0

/-- Python `bool(...)` on a JSON number or boolean. -/
def py_bool : Json → Bool
  | Json.num q => decide (q ≠ 0)
  | Json.bool b => b

/-- A sparse inbound command payload: `some v` models a present key,
`none` an absent one. -/
structure SetPayload where
  period : Option Json := none
  preset_index : Option Json := none
  output_voltage_set : Option Json := none
  output_current_set : Option Json := none
  ovp : Option Json := none
  ocp : Option Json := none
  output_enable : Option Json := none
  output_toggle : Option Json := none
  deriving Repr, DecidableEq

/-- `Bridge._set_state`'s field extraction (bridge.py 190-227): coerce each
present field; absent fields stay `None`. -/
def parse_set (msg : SetPayload) : RD60xxStateSet :=
  { preset_index := msg.preset_index.map py_int
    output_voltage_set := msg.output_voltage_set.map py_float
    output_current_set := msg.output_current_set.map py_float
    ovp := msg.ovp.map py_float
    ocp := msg.ocp.map py_float
    output_enable := msg.output_enable.map py_bool
    output_toggle := msg.output_toggle.map py_bool }

/-! ### Device worker loop (`Bridge._psu_task_func`, bridge.py 93-159) -/

/-- A queued command: `(False, None)` is Get, `(True, request)` is Set. -/
inductive QueueEntry where
  | get
  | set (req : SetPayload)
  deriving Repr, DecidableEq

/-- The state one worker iteration touches, with the device's registers
inline so a Set's writes are visible to a later Get. -/
structure WorkerState where
  regs : Regs
  cache : PresetCache
  last_query_time : ℚ
  published : List StateMsg
  status : WorkerStatus

/-- `Bridge._process_queue_entry` (bridge.py 161-176) against a live device:
a Get runs `_get_state` (publish on success only), a Set parses the payload
and performs `RD60xx.set_state`'s writes.  A failed `set_state` read
(impossible against a live device) would raise out of the worker body,
modelled as `faulted`. -/
def worker_process_entry (period : Option ℚ) (now : ℚ) (w : WorkerState) :
    QueueEntry → WorkerState
  | QueueEntry.get =>
    let r := get_state (session_of w.regs) w.cache now
    match r.state with
    | some s =>
      { w with cache := r.cache, last_query_time := now,
               published := w.published ++ [build_state_msg period s] }
    | none => { w with cache := r.cache }
  | QueueEntry.set req =>
    let sr := set_state (session_of w.regs) (parse_set req)
    if sr.ok then
      { w with regs := apply_writes w.regs sr.writes }
    else
      { w with regs := apply_writes w.regs sr.writes, status := WorkerStatus.faulted }

/-- The drain loop (bridge.py 105-110): process every queued entry, oldest
first. -/
def worker_drain (period : Option ℚ) (now : ℚ) (w : WorkerState)
    (queue : List QueueEntry) : WorkerState :=
  queue.foldl (worker_process_entry period now) w

/-- The periodic-poll condition (bridge.py 131-139): polling enabled and the
period elapsed since the last successful query. -/
def poll_due (period : Option ℚ) (lqt now : ℚ) : Bool :=
  match period with
  | some p => decide (0 < p) && decide (p < now - lqt)
  | none => false

/-- One iteration of the main loop: a full drain, then (only afterwards) at
most one periodic poll. -/
def worker_loop_iter (period : Option ℚ) (now : ℚ) (w : WorkerState)
    (queue : List QueueEntry) : WorkerState :=
  let w2 := worker_drain period now w queue
  if poll_due period w2.last_query_time now then
    worker_process_entry period now w2 QueueEntry.get
  else
    w2

/-- The register file after the OVP + output-enable writes of the C7
scenario's Set command. -/
def ovp_enable_regs (regs : Regs) (x : ℚ) (b : Bool) : Regs :=
  write_at (write_at regs REG_M0_OVP (pyInt (x * voltage_scale (regs REG_MODEL))))
    REG_OUTPUT_ENABLE (if b then 1 else 0)

/-! ### C8: bounded queues shed load silently -/

/-- `asyncio.Queue.put_nowait` on a queue with `maxsize = cap`: `none`
models a raised `QueueFull`.  The call never blocks. -/
def put_nowait {α : Type} (cap : ℕ) (q : List α) (x : α) : Option (List α) :=
  if cap ≤ q.length then none else some (q ++ [x])

/-- `Bridge.queue_state_get` (bridge.py 70-77): push a Get, swallowing
`QueueFull` — at capacity the newest item is silently dropped. -/
def queue_state_get (q : List QueueEntry) : List QueueEntry :=
  match put_nowait 64 q QueueEntry.get with
  | some q2 => q2
  | none => q

/-- `Bridge.queue_state_set` (bridge.py 79-86). -/
def queue_state_set (q : List QueueEntry) (req : SetPayload) : List QueueEntry :=
  match put_nowait 64 q (QueueEntry.set req) with
  | some q2 => q2
  | none => q

/-- A freshly accepted, not yet onboarded session. -/
structure NewPsu where
  client : ℕ
  host : String
  port : ℕ
  deriving Repr, DecidableEq

/-- `RD60xxToMQTT.psu_connected` (rd60xx_to_mqtt.py 126-141): queue the new
session for onboarding; on `QueueFull` close it instead.  Returns the queue
afterwards and whether the session was closed. -/
def psu_connected (q : List NewPsu) (c : NewPsu) : List NewPsu × Bool :=
  match put_nowait 16 q c with
  | some q2 => (q2, false)
  | none => (q, true)

/-! ### Persistent per-identity state (psu_state.py) -/

/-- `PSUState`: the `update_period` attribute.  `none` models Python `None`
(the onboarding code checks for it); the constructor never stores it. -/
structure PSUState where
  update_period : Option ℚ
  deriving Repr, DecidableEq

/-- `PSUState.__init__` (psu_state.py 4-8): automatic updates disabled —
`update_period` starts at 0, not `None`. -/
def mkPSUState : PSUState :=
  { update_period := some 0 }

/-- The identity → state map of `PSUStates`, insertion-ordered. -/
abbrev PSUStateMap : Type := List (String × PSUState)

/-- Replace the value stored for an existing key. -/
def update_state (m : PSUStateMap) (identity : String) (st : PSUState) : PSUStateMap :=
  m.map fun p => if p.1 = identity then (p.1, st) else p

/-- `PSUStates.get_state` (psu_state.py 27-40): return the stored state,
creating one lazily when `create` is set. -/
def psu_states_get (m : PSUStateMap) (identity : String) (create : Bool) :
    PSUStateMap × Option PSUState :=
  match m.lookup identity with
  | some st => (m, some st)
  | none =>
    if create then (m ++ [(identity, mkPSUState)], some mkPSUState)
    else (m, none)

/-- Onboarding lines 609-614 of `_psu_task`: fetch (creating) the persistent
state, then assign the configured default update period only when
`update_period is None`. -/
def apply_default_period (m : PSUStateMap) (identity : String) (dflt : ℚ) : PSUStateMap :=
  match psu_states_get m identity true with
  | (m1, some st) =>
    if st.update_period = none then update_state m1 identity { update_period := some dflt }
    else m1
  | (m1, none) => m1

/-- Every stored `update_period` is set (never Python `None`). -/
def AllSome (m : PSUStateMap) : Prop :=
  ∀ p ∈ m, p.2.update_period.isSome

/-! ### Inbound `state/set` dispatch (rd60xx_to_mqtt.py 235-263) -/

/-- The `state_changing_keys` check (rd60xx_to_mqtt.py 257-259): is any key
other than `period` present? -/
def has_state_changing_key (p : SetPayload) : Bool :=
  p.output_voltage_set.isSome || p.output_current_set.isSome || p.ovp.isSome ||
  p.ocp.isSome || p.output_enable.isSome || p.output_toggle.isSome || p.preset_index.isSome

/-- Result of dispatching one `state/set` message. -/
structure SetDispatch where
  states : PSUStateMap
  queue : List QueueEntry
  pending : List String
  scheduled_delayed_query : Bool
  deriving Repr, DecidableEq

/-- The `state/set` branch of `RD60xxToMQTT._mqtt_inbound` (rd60xx_to_mqtt.py
235-263).  `connected` says whether `identity` has a live worker (whose
command queue is `queue`).  The period update touches only the persistent
state and runs whether or not a worker is connected; it requires the
persistent state to exist (`get_state(identity, create=False)`) and the
payload's `period` to be an `int` or `float` (a JSON boolean is neither).
If connected, the whole payload is forwarded to the worker's queue, and a
state-changing payload schedules one debounced re-query unless one is
already pending. -/
def handle_state_set (states : PSUStateMap) (pending : List String)
    (connected : Bool) (queue : List QueueEntry) (identity : String)
    (payload : SetPayload) : SetDispatch :=
  let state? := (psu_states_get states identity false).2
  let states1 :=
    match payload.period, state? with
    | some (Json.num q), some _ =>
      update_state states identity
        { update_period := some (if q ≠ 0 then max q (1/10) else q) }
    | _, _ => states
  if connected then
    let queue1 := queue_state_set queue payload
    if has_state_changing_key payload && decide (identity ∉ pending) then
      ⟨states1, queue1, identity :: pending, true⟩
    else
      ⟨states1, queue1, pending, false⟩
  else
    ⟨states1, queue, pending, false⟩

/-! ### C9: the debounce task's cleanup (rd60xx_to_mqtt.py 314-319) -/

/-- `RD60xxToMQTT._delayed_state_query`: sleep, queue a Get on the worker,
then discard the identity's pending marker.  The body has no try/finally;
`cancelled_during_sleep` models a `CancelledError` raised at the `await
asyncio.sleep` suspension point, which skips both remaining statements. -/
def delayed_state_query (pending : List String) (queue : List QueueEntry)
    (identity : String) (cancelled_during_sleep : Bool) :
    List String × List QueueEntry :=
  if cancelled_during_sleep then
    (pending, queue)
  else
    (pending.filter (fun i => i ≠ identity), queue_state_get queue)

/-! ### C3: worker removal on disconnect (rd60xx_to_mqtt.py 143-166) -/

/-- A live worker entry of `self._psus`. -/
structure WorkerHandle where
  identity : String
  client : ℕ
  deriving Repr, DecidableEq

/-- The orchestrator state `psu_disconnected` can reach, with a `published`
trace of outbound `(identity, connected, period)` status messages. -/
structure OrchState where
  psus : List WorkerHandle
  firmware_version_updated : List String
  pending_state_queries : List String
  cancelled : List String
  published : List (String × Bool × Option ℚ)
  deriving Repr, DecidableEq

/-- `RD60xxToMQTT.psu_disconnected`: find the worker whose client matches,
cancel its task, delete it from the map, and discard its firmware-discovery
flag.  It publishes nothing and does not touch `_pending_state_queries`. -/
def psu_disconnected (st : OrchState) (client : ℕ) : OrchState :=
  match st.psus.find? (fun p => p.client = client) with
  | some p =>
    { st with
      psus := st.psus.filter (fun q => q.identity ≠ p.identity),
      cancelled := p.identity :: st.cancelled,
      firmware_version_updated :=
        st.firmware_version_updated.filter (fun i => i ≠ p.identity) }
  | none => st

/-- The `state/get` branch without a query (rd60xx_to_mqtt.py 272-279):
reply `(connected, period)` without touching the device; the period is the
stored `update_period`, or 0 when no persistent state exists. -/
def handle_state_get_status (states : PSUStateMap) (connected : Bool)
    (identity : String) : Bool × Option ℚ :=
  (connected,
    match (psu_states_get states identity false).2 with
    | some st => st.update_period
    | none => some 0)

/-! ### C4: identity resolution & cache (`_psu_task`, rd60xx_to_mqtt.py 549-633) -/

/-- The IP → (identity, last-connection time) cache. -/
abbrev IdentityCache : Type := List (String × String × ℚ)

/-- Python dict assignment `identity_cache[host] = v`. -/
def update_cache (cache : IdentityCache) (host : String) (v : String × ℚ) : IdentityCache :=
  if (cache.lookup host).isSome then
    cache.map fun p => if p.1 = host then (p.1, v) else p
  else
    cache ++ [(host, v)]

/-- Lines 565-578: the cached identity, dropped when the host has been away
longer than the TTL. -/
def cached_identity (ttl : ℚ) (cache : IdentityCache) (host : String) (now : ℚ) :
    Option String :=
  match cache.lookup host with
  | some (identity, last) => if now - last > ttl then none else some identity
  | none => none

/-- Outcome of onboarding one new session. -/
structure OnboardResult where
  cache : IdentityCache
  worker_identity : Option String
  session_closed : Bool
  reads : List (ℕ × ℕ)
  deriving Repr, DecidableEq

/-- One iteration of `_psu_task`'s loop for a session from `host` at time
`now`: reuse the cached identity when fresh (no device I/O), else resolve
with one `get_state` query on the brand-new `RD60xx` instance (whose preset
cache starts empty, forcing the preset read); a failed query closes the
session, leaves the cache alone and creates no worker.  Every successful
path refreshes the cache entry's timestamp and creates a worker. -/
def psu_onboard (ttl : ℚ) (cache : IdentityCache) (host : String) (now : ℚ)
    (session : Session) : OnboardResult :=
  match cached_identity ttl cache host now with
  | some identity =>
    ⟨update_cache cache host (identity, now), some identity, false, []⟩
  | none =>
    let r := get_state session ⟨none, 0⟩ now
    match r.state with
    | none => ⟨cache, none, true, r.reads⟩
    | some st =>
      let identity := toString st.model ++ "_" ++ toString st.serial_no
      ⟨update_cache cache host (identity, now), some identity, false, r.reads⟩

/-! ## Theorems -/

/-- On nonnegative rationals, truncation toward zero is the floor. -/
theorem pyInt_eq_floor (q : ℚ) (hq : 0 ≤ q) : pyInt q = ⌊q⌋ := by
  rw [pyInt, Rat.floor_def]
  exact Int.tdiv_eq_ediv (Rat.num_nonneg.mpr hq) (Int.ofNat_nonneg q.den)

theorem voltage_scale_pos (m : ℕ) : 0 < voltage_scale m := by
  unfold voltage_scale MODEL_VOLTAGE_SCALINGS DEFAULT_VOLTAGE_SCALE
  by_cases h1 : m = 60125 <;> by_cases h2 : m / 10 = 60125 <;> simp [h1, h2]

theorem current_scale_base_pos (m : ℕ) : 0 < current_scale_base m := by
  unfold current_scale_base current_scale_pair MODEL_CURRENT_SCALINGS DEFAULT_CURRENT_SCALE
  by_cases h1 : m = 6006 <;> by_cases h2 : m = 60125 <;>
    by_cases h3 : m / 10 = 6006 <;> by_cases h4 : m / 10 = 60125 <;>
      simp [h1, h2, h3, h4]

theorem current_scale_ranged_pos (m r : ℕ) : 0 < current_scale_ranged m r := by
  unfold current_scale_ranged
  have := current_scale_base_pos m
  split <;> [positivity; exact this]

/-- Key bound: decoding after truncating-encoding with the same positive scale
loses strictly less than one scale-unit (and never overshoots). -/
theorem trunc_scale_round_trip (s : ℚ) (hs : 0 < s) (x : ℚ) (hx : 0 ≤ x) :
    (pyInt (x * s) : ℚ) / s ≤ x ∧ x - (pyInt (x * s) : ℚ) / s < 1 / s := by
  have hxs : (0 : ℚ) ≤ x * s := mul_nonneg hx hs.le
  rw [pyInt_eq_floor _ hxs]
  have h1 : (⌊x * s⌋ : ℚ) ≤ x * s := Int.floor_le _
  have h2 : x * s < (⌊x * s⌋ : ℚ) + 1 := Int.lt_floor_add_one _
  constructor
  · rw [div_le_iff₀ hs]
    exact h1
  · rw [sub_lt_iff_lt_add, div_add_div_same, lt_div_iff₀ hs]
    linarith

/-- Truncation toward zero negates cleanly. -/
theorem pyInt_neg (q : ℚ) : pyInt (-q) = -pyInt q := by
  unfold pyInt
  rw [Rat.neg_num, Rat.neg_den, Int.neg_tdiv]

/-- Truncation toward zero is off by strictly less than one, for every sign. -/
theorem pyInt_abs_bound (q : ℚ) : |(pyInt q : ℚ) - q| < 1 := by
  rw [abs_sub_lt_iff]
  rcases le_or_lt 0 q with hq | hq
  · rw [pyInt_eq_floor q hq]
    have h1 := Int.floor_le q
    have h2 := Int.lt_floor_add_one q
    constructor <;> linarith
  · have hq' : (0 : ℚ) ≤ -q := by linarith
    have he : pyInt q = -pyInt (-q) := by rw [pyInt_neg, neg_neg]
    rw [he, pyInt_eq_floor _ hq']
    have h1 := Int.floor_le (-q)
    have h2 := Int.lt_floor_add_one (-q)
    push_cast
    constructor <;> linarith

/-- Decoding after truncating-encoding with the same positive scale stays
within one scale-unit in absolute value, for every value of every sign. -/
theorem trunc_scale_abs (s : ℚ) (hs : 0 < s) (x : ℚ) :
    |(pyInt (x * s) : ℚ) / s - x| < 1 / s := by
  have h := pyInt_abs_bound (x * s)
  have hx : (pyInt (x * s) : ℚ) / s - x = ((pyInt (x * s) : ℚ) - x * s) / s := by
    field_simp
    ring
  rw [hx, abs_div, abs_of_pos hs, div_lt_div_iff_of_pos_right hs]
  exact h

/-! ### C1: setpoint round trip -/

/-- Claim C1 as stated fails: on model 60125 (a supported model with a
switchable current range) in low range (`current_range = 0`), `set_state`
encodes OCP with the range-multiplied current scale (rd60xx.py line 554)
while `get_state` decodes the same register with the scale before the range
was applied (line 421), so an OCP setpoint of 1 A decodes as 10 A. -/
theorem setpoint_round_trip_cex : ¬ SetpointRoundTrip 60125 0 ⟨1, 1, 1, 1⟩ := by
  intro h
  have h4 : |decode_ocp 60125 (encode_ocp 60125 0 1) - 1| < 1 / current_scale_base 60125 :=
    h.2.2.2
  have hcb : current_scale_base 60125 = 1000 := by
    simp [current_scale_base, current_scale_pair, MODEL_CURRENT_SCALINGS]
  have hcs : current_scale_ranged 60125 0 = 10000 := by
    simp [current_scale_ranged, uses_current_range, current_scale_pair,
      MODEL_CURRENT_SCALINGS, hcb]
    norm_num
  have henc : encode_ocp 60125 0 (1 : ℚ) = 10000 := by
    rw [encode_ocp, hcs, one_mul, pyInt_eq_floor _ (by norm_num)]
    norm_num
  have hdec : decode_ocp 60125 (10000 : ℤ) = 10 := by
    rw [decode_ocp, hcb]
    norm_num
  rw [henc, hdec, hcb] at h4
  norm_num at h4

/-- Claim C1, amended: for every model/hardware-revision pair, every current
range and every setpoint record x, decoding after encoding returns the
voltage setpoint, the current setpoint and OVP within one scale-unit of
integer-truncation rounding; OCP likewise, except on switchable-range models
in low range (current_range = 0), where the decoded OCP is 10 times a value
within one range-scaled scale-unit of x — the encode scale and the decode
scale differ by the factor 10. -/
theorem setpoint_round_trip_amended (model current_range : ℕ) (x : Setpoints) :
    |decode_voltage_set model (encode_voltage_set model x.voltage) - x.voltage|
        < 1 / voltage_scale model ∧
    |decode_current_set model current_range
        (encode_current_set model current_range x.current) - x.current|
        < 1 / current_scale_ranged model current_range ∧
    |decode_ovp model (encode_ovp model x.ovp) - x.ovp| < 1 / voltage_scale model ∧
    (¬(uses_current_range model = true ∧ current_range = 0) →
      |decode_ocp model (encode_ocp model current_range x.ocp) - x.ocp|
        < 1 / current_scale_base model) ∧
    (uses_current_range model = true ∧ current_range = 0 →
      |decode_ocp model (encode_ocp model current_range x.ocp) / 10 - x.ocp|
        < 1 / current_scale_ranged model current_range) := by
  refine ⟨?_, ?_, ?_, ?_, ?_⟩
  · exact trunc_scale_abs _ (voltage_scale_pos model) _
  · exact trunc_scale_abs _ (current_scale_ranged_pos model current_range) _
  · exact trunc_scale_abs _ (voltage_scale_pos model) _
  · intro hr
    have hbase : current_scale_ranged model current_range = current_scale_base model := by
      unfold current_scale_ranged
      rw [if_neg hr]
    show |(pyInt (x.ocp * current_scale_ranged model current_range) : ℚ) /
        current_scale_base model - x.ocp| < 1 / current_scale_base model
    rw [hbase]
    exact trunc_scale_abs _ (current_scale_base_pos model) _
  · intro hlow
    have hcs : current_scale_ranged model current_range
        = current_scale_base model * 10 := by
      unfold current_scale_ranged
      rw [if_pos hlow]
    show |(pyInt (x.ocp * current_scale_ranged model current_range) : ℚ) /
        current_scale_base model / 10 - x.ocp|
        < 1 / current_scale_ranged model current_range
    rw [div_div, ← hcs]
    exact trunc_scale_abs _ (current_scale_ranged_pos model current_range) _

/-- Witness for `setpoint_round_trip_amended`: the voltage bound on the
switchable-range model 60125 in low range with a negative value, the OCP
bound on model register 60062 (an RD6006 hardware revision 2, scale table
hit on `model // 10`), and the times-10 OCP behaviour on model 60125 in low
range. -/
theorem setpoint_round_trip_amended_witness :
    |decode_voltage_set 60125 (encode_voltage_set 60125 (-3/2)) - (-3/2)|
        < 1 / voltage_scale 60125 ∧
    |decode_ocp 60062 (encode_ocp 60062 1 6) - 6| < 1 / current_scale_base 60062 ∧
    |decode_ocp 60125 (encode_ocp 60125 0 1) / 10 - 1|
        < 1 / current_scale_ranged 60125 0 :=
  ⟨(setpoint_round_trip_amended 60125 0 ⟨-3/2, 1, 1, 1⟩).1,
   (setpoint_round_trip_amended 60062 1 ⟨3/2, 2, 5, 6⟩).2.2.2.1 (by decide),
   (setpoint_round_trip_amended 60125 0 ⟨1, 1, 1, 1⟩).2.2.2.2 (by decide)⟩

theorem read_regs_session_of (regs : Regs) (addr count : ℕ) :
    read_regs (session_of regs) addr count
      = some ((List.range count).map fun i => regs (addr + i)) := by
  simp [read_regs, session_of]

/-! ### C2: preset list shape -/

theorem read_regs_some_length {session : Session} {a c : ℕ} {regs : List ℕ}
    (h : read_regs session a c = some regs) : regs.length = c := by
  unfold read_regs at h
  cases hs : session a c with
  | none => rw [hs] at h; exact absurd h (by simp)
  | some r =>
    rw [hs] at h
    dsimp only at h
    by_cases hl : r.length = c
    · rw [if_pos hl] at h
      cases h
      exact hl
    · rw [if_neg hl] at h
      exact absurd h (by simp)

theorem preset_chunks_length (vs cs : ℚ) :
    ∀ regs : List ℕ, (preset_chunks vs cs regs).length = regs.length / 4
  | [] => rfl
  | [_] => by norm_num [preset_chunks]
  | [_, _] => by norm_num [preset_chunks]
  | [_, _, _] => by norm_num [preset_chunks]
  | _ :: _ :: _ :: _ :: rest => by
      simp only [preset_chunks, List.length_cons, preset_chunks_length vs cs rest]
      omega

/-- Entry `j` of the decoded preset list holds registers `4j..4j+3` scaled
as (voltage, current, ovp, ocp) — the field order of `_read_presets`. -/
theorem preset_chunks_getD (vs cs : ℚ) :
    ∀ (regs : List ℕ) (j : ℕ), 4 * j + 3 < regs.length →
      (preset_chunks vs cs regs).getD j (0, 0, 0, 0) =
        ((regs.getD (4 * j) 0 : ℚ) / vs, (regs.getD (4 * j + 1) 0 : ℚ) / cs,
         (regs.getD (4 * j + 2) 0 : ℚ) / vs, (regs.getD (4 * j + 3) 0 : ℚ) / cs)
  | [], j, h => by simp only [List.length_nil] at h; omega
  | [_], j, h => by simp only [List.length_cons, List.length_nil] at h; omega
  | [_, _], j, h => by simp only [List.length_cons, List.length_nil] at h; omega
  | [_, _, _], j, h => by simp only [List.length_cons, List.length_nil] at h; omega
  | v :: c :: o :: p :: rest, 0, _ => by
      simp [preset_chunks]
  | v :: c :: o :: p :: rest, j + 1, h => by
      have h4 : 4 * j + 3 < rest.length := by
        simp only [List.length_cons] at h
        omega
      have e0 : 4 * (j + 1) = 4 * j + 4 := by ring
      have e1 : 4 * (j + 1) + 1 = 4 * j + 5 := by ring
      have e2 : 4 * (j + 1) + 2 = 4 * j + 6 := by ring
      have e3 : 4 * (j + 1) + 3 = 4 * j + 7 := by ring
      simp only [e0, e1, e2, e3, preset_chunks, List.getD_cons_succ]
      exact preset_chunks_getD vs cs rest j h4

/-- `read_presets` when a refresh is due. -/
theorem read_presets_due (session : Session) (vs cs : ℚ) (cache : PresetCache) (now : ℚ)
    (h : RefreshDue cache now) :
    read_presets session vs cs cache now =
      match read_regs session REG_M1_V PRESET_READ_COUNT with
      | none => (none, [(REG_M1_V, PRESET_READ_COUNT)])
      | some regs =>
          (some ⟨some (preset_chunks vs cs regs), now⟩, [(REG_M1_V, PRESET_READ_COUNT)]) := by
  unfold read_presets
  rw [if_pos h]

/-- `read_presets` when no refresh is due: no read, cache unchanged. -/
theorem read_presets_not_due (session : Session) (vs cs : ℚ) (cache : PresetCache) (now : ℚ)
    (h : ¬ RefreshDue cache now) :
    read_presets session vs cs cache now = (some cache, []) := by
  unfold read_presets
  rw [if_neg h]

theorem getD_session_list (d : Regs) (addr count r : ℕ) (hr : r < count) :
    ((List.range count).map fun i => d (addr + i)).getD r 0 = d (addr + r) := by
  simp [List.getD_eq_getElem?_getD, List.getElem?_map, List.getElem?_range, hr]

/-- Against a live device (all reads succeed with the right length),
`get_state` always produces a snapshot; the decoded fields named here are
read straight off the register file. -/
theorem get_state_live (d : Regs) (cache : PresetCache) (now : ℚ) :
    ∃ s, (get_state (session_of d) cache now).state = some s ∧
      s.model = d REG_MODEL ∧
      s.ovp = (d REG_M0_OVP : ℚ) / voltage_scale (d REG_MODEL) ∧
      s.ocp = (d REG_M0_OCP : ℚ) / current_scale_base (d REG_MODEL) ∧
      s.output_enable = decide (d REG_OUTPUT_ENABLE ≠ 0) ∧
      (RefreshDue cache now → s.presets.length = 9) ∧
      (¬ RefreshDue cache now → s.presets = cache.presets.getD []) ∧
      (get_state (session_of d) cache now).reads
        = (if RefreshDue cache now then
            [(REG_MODEL, STATE_READ_COUNT), (REG_M0_OVP, 2), (REG_M1_V, PRESET_READ_COUNT)]
          else [(REG_MODEL, STATE_READ_COUNT), (REG_M0_OVP, 2)]) := by
  unfold get_state
  rw [read_regs_session_of]
  dsimp only
  rw [read_regs_session_of]
  dsimp only
  by_cases hdue : RefreshDue cache now
  · rw [read_presets_due _ _ _ _ _ hdue, read_regs_session_of]
    dsimp only
    refine ⟨_, rfl, ?_, ?_, ?_, ?_, fun _ => ?_, fun hnd => absurd hdue hnd, ?_⟩ <;>
      simp [hdue, getD_session_list, preset_chunks_length, STATE_READ_COUNT, PRESET_READ_COUNT,
        REG_MODEL, REG_M0_OVP, REG_M0_OCP, REG_OUTPUT_ENABLE, REG_BATT_WH_LO, REG_M1_V,
        REG_M9_OCP]
  · rw [read_presets_not_due _ _ _ _ _ hdue]
    dsimp only
    refine ⟨_, rfl, ?_, ?_, ?_, ?_, fun hd => absurd hd hdue, fun _ => rfl, ?_⟩ <;>
      simp [hdue, getD_session_list, STATE_READ_COUNT,
        REG_MODEL, REG_M0_OVP, REG_M0_OCP, REG_OUTPUT_ENABLE, REG_BATT_WH_LO]

/-- Claim C2 as stated fails: `_read_presets` reads the block `M1_V..M9_OCP`
(36 registers, presets M1 through M9 — M0 is handled separately), so a
successful decode on model 60301 yields 9 presets, not 10. -/
theorem presets_ten_entries_cex :
    ((get_state (session_of preset_cex_regs) ⟨none, 0⟩ 0).state.map fun s => s.model)
        = some 60301 ∧
    ((get_state (session_of preset_cex_regs) ⟨none, 0⟩ 0).state.map fun s => s.presets.length)
        = some 9 ∧
    ¬ ((get_state (session_of preset_cex_regs) ⟨none, 0⟩ 0).state.map fun s => s.presets.length)
        = some 10 := by
  obtain ⟨s, hs, hmodel, _, _, _, hlen, _, _⟩ := get_state_live preset_cex_regs ⟨none, 0⟩ 0
  have hdue : RefreshDue ⟨none, 0⟩ 0 := Or.inr rfl
  have h9 : ((get_state (session_of preset_cex_regs) ⟨none, 0⟩ 0).state.map
      fun s => s.presets.length) = some 9 := by
    rw [hs]
    simp [hlen hdue]
  refine ⟨?_, h9, ?_⟩
  · rw [hs]
    simp [hmodel, preset_cex_regs, REG_MODEL]
  · intro h
    rw [h9] at h
    simp at h

/-- Claim C2, amended: on any model (60301 included) every successful decode
whose preset cache started empty carries exactly 9 presets, entry `j`
holding preset registers `4j..4j+3` in (voltage, current, ovp, ocp) order. -/
theorem presets_decode_nine (session : Session) (cache : PresetCache) (now : ℚ)
    (s : RD60xxStateGet) (hfresh : cache.presets = none)
    (hs : (get_state session cache now).state = some s) :
    ∃ regsA regsP,
      read_regs session REG_MODEL STATE_READ_COUNT = some regsA ∧
      read_regs session REG_M1_V PRESET_READ_COUNT = some regsP ∧
      regsP.length = 36 ∧
      s.presets = preset_chunks (voltage_scale (regsA.getD 0 0))
        (current_scale_ranged (regsA.getD 0 0) (regsA.getD 20 0)) regsP ∧
      s.presets.length = 9 ∧
      (∀ j, j < 9 → s.presets.getD j (0, 0, 0, 0) =
        ((regsP.getD (4 * j) 0 : ℚ) / voltage_scale (regsA.getD 0 0),
         (regsP.getD (4 * j + 1) 0 : ℚ)
            / current_scale_ranged (regsA.getD 0 0) (regsA.getD 20 0),
         (regsP.getD (4 * j + 2) 0 : ℚ) / voltage_scale (regsA.getD 0 0),
         (regsP.getD (4 * j + 3) 0 : ℚ)
            / current_scale_ranged (regsA.getD 0 0) (regsA.getD 20 0))) := by
  unfold get_state at hs
  cases hA : read_regs session REG_MODEL STATE_READ_COUNT with
  | none => rw [hA] at hs; exact absurd hs (by simp)
  | some regsA =>
    rw [hA] at hs
    dsimp only at hs
    cases hB : read_regs session REG_M0_OVP 2 with
    | none => rw [hB] at hs; exact absurd hs (by simp)
    | some regsB =>
      rw [hB] at hs
      dsimp only at hs
      rw [read_presets_due _ _ _ _ _ (Or.inr hfresh)] at hs
      cases hP : read_regs session REG_M1_V PRESET_READ_COUNT with
      | none => rw [hP] at hs; exact absurd hs (by simp)
      | some regsP =>
        rw [hP] at hs
        dsimp only at hs
        have hlen : regsP.length = 36 := read_regs_some_length hP
        refine ⟨regsA, regsP, rfl, rfl, hlen, ?_⟩
        have hpres : s.presets = preset_chunks (voltage_scale (regsA.getD 0 0))
            (current_scale_ranged (regsA.getD 0 0) (regsA.getD 20 0)) regsP := by
          cases hs
          rfl
        refine ⟨hpres, ?_, ?_⟩
        · rw [hpres, preset_chunks_length, hlen]
        · intro j hj
          rw [hpres]
          exact preset_chunks_getD _ _ regsP j (by omega)

/-- Witness for `presets_decode_nine` on the concrete model-60301 device. -/
theorem presets_decode_nine_witness :
    ((get_state (session_of preset_cex_regs) ⟨none, 0⟩ 0).state.map
        fun s => s.presets.length) = some 9 := by
  obtain ⟨s0, hs0, _⟩ := get_state_live preset_cex_regs ⟨none, 0⟩ 0
  obtain ⟨_, _, _, _, _, _, hlen, _⟩ :=
    presets_decode_nine (session_of preset_cex_regs) ⟨none, 0⟩ 0 s0 rfl hs0
  rw [hs0]
  simp [hlen]

theorem read_regs_some_session {session : Session} {a c : ℕ} {regs : List ℕ}
    (h : read_regs session a c = some regs) : session a c = some regs := by
  unfold read_regs at h
  cases hs : session a c with
  | none => rw [hs] at h; exact absurd h (by simp)
  | some r =>
    rw [hs] at h
    dsimp only at h
    by_cases hl : r.length = c
    · rw [if_pos hl] at h
      cases h
      rfl
    · rw [if_neg hl] at h
      exact absurd h (by simp)

theorem read_ok_of_read_regs_some {session : Session} {a c : ℕ} {regs : List ℕ}
    (h : read_regs session a c = some regs) : read_ok session a c :=
  ⟨regs, read_regs_some_session h, read_regs_some_length h⟩

/-- Claim C5: if any register read the poll issues fails or returns an
unexpected register count, `get_state` yields no snapshot (so nothing
partial either — the snapshot is all-or-nothing by type), the preset cache
is unchanged, and the worker step publishes nothing, keeps its previous
poll stamp, and stays running. -/
theorem poll_failure_no_snapshot (session : Session) (period : Option ℚ)
    (cache : PresetCache) (lqt now : ℚ)
    (hbad : ¬ read_ok session REG_MODEL STATE_READ_COUNT ∨
            ¬ read_ok session REG_M0_OVP 2 ∨
            (RefreshDue cache now ∧ ¬ read_ok session REG_M1_V PRESET_READ_COUNT)) :
    (get_state session cache now).state = none ∧
    (get_state session cache now).cache = cache ∧
    worker_get session period ⟨cache, lqt, WorkerStatus.running⟩ now
      = (⟨cache, lqt, WorkerStatus.running⟩, []) := by
  have hstate : (get_state session cache now).state = none ∧
      (get_state session cache now).cache = cache := by
    unfold get_state
    cases hA : read_regs session REG_MODEL STATE_READ_COUNT with
    | none => exact ⟨rfl, rfl⟩
    | some regsA =>
      dsimp only
      cases hB : read_regs session REG_M0_OVP 2 with
      | none => exact ⟨rfl, rfl⟩
      | some regsB =>
        dsimp only
        have hdue : RefreshDue cache now ∧ ¬ read_ok session REG_M1_V PRESET_READ_COUNT := by
          rcases hbad with h | h | h
          · exact absurd (read_ok_of_read_regs_some hA) h
          · exact absurd (read_ok_of_read_regs_some hB) h
          · exact h
        rw [read_presets_due _ _ _ _ _ hdue.1]
        cases hP : read_regs session REG_M1_V PRESET_READ_COUNT with
        | none => exact ⟨rfl, rfl⟩
        | some regsP => exact absurd (read_ok_of_read_regs_some hP) hdue.2
  refine ⟨hstate.1, hstate.2, ?_⟩
  unfold worker_get
  dsimp only
  rw [hstate.1]
  dsimp only
  rw [hstate.2]

/-- Witness for `poll_failure_no_snapshot` on the dead session. -/
theorem poll_failure_no_snapshot_witness :
    (get_state dead_session ⟨none, 0⟩ 0).state = none ∧
    (get_state dead_session ⟨none, 0⟩ 0).cache = ⟨none, 0⟩ ∧
    worker_get dead_session (some 1) ⟨⟨none, 0⟩, 0, WorkerStatus.running⟩ 0
      = (⟨⟨none, 0⟩, 0, WorkerStatus.running⟩, []) :=
  poll_failure_no_snapshot dead_session (some 1) ⟨none, 0⟩ 0 0
    (Or.inl (by simp [read_ok, dead_session]))

theorem pyInt_nonneg (q : ℚ) (hq : 0 ≤ q) : 0 ≤ pyInt q := by
  rw [pyInt_eq_floor q hq]
  exact Int.floor_nonneg.mpr hq

/-- Evaluation of `set_state` for a payload carrying only OVP and
output-enable: two writes, in source order, and no failure. -/
theorem set_state_ovp_enable (d : Regs) (x : ℚ) (b : Bool) :
    (set_state (session_of d)
        (parse_set { ovp := some (Json.num x), output_enable := some (Json.bool b) })).writes
      = [WriteOp.single REG_M0_OVP (pyInt (x * voltage_scale (d REG_MODEL))),
         WriteOp.single REG_OUTPUT_ENABLE (if b then 1 else 0)] ∧
    (set_state (session_of d)
        (parse_set { ovp := some (Json.num x), output_enable := some (Json.bool b) })).ok
      = true := by
  unfold set_state parse_set session_of
  simp only [Option.map_some, Option.map_none, py_float, py_bool]
  by_cases hr : uses_current_range (((List.range 1).map fun i => d (REG_MODEL + i)).getD 0 0)
  · rw [if_pos hr]
    constructor <;> simp [py_float, py_bool]
  · rw [if_neg hr]
    constructor <;> simp [py_float, py_bool]

/-- Processing one entry only ever appends to the published output. -/
theorem worker_process_entry_published (period : Option ℚ) (now : ℚ)
    (w : WorkerState) (e : QueueEntry) :
    ∃ rest, (worker_process_entry period now w e).published = w.published ++ rest := by
  cases e with
  | get =>
    unfold worker_process_entry
    dsimp only
    cases hs : (get_state (session_of w.regs) w.cache now).state with
    | some s => exact ⟨[build_state_msg period s], rfl⟩
    | none => exact ⟨[], by simp⟩
  | set req =>
    refine ⟨[], ?_⟩
    unfold worker_process_entry
    dsimp only
    split <;> simp

/-- Claim C7: within one worker, (1) queued commands are processed strictly
in arrival order — draining a concatenation is draining the first part then
the second; (2) the periodic poll can only add output after the entire
drain's output, so queued commands are never starved by polling; (3) a Set
followed by a Get, both queued before the worker wakes, publishes exactly
one snapshot, and that snapshot already reflects the Set's effect (here an
OVP write and an output-enable write). -/
theorem worker_fifo_drain_before_poll (period : Option ℚ) (now : ℚ) :
    (∀ (w : WorkerState) (q1 q2 : List QueueEntry),
      worker_drain period now w (q1 ++ q2)
        = worker_drain period now (worker_drain period now w q1) q2) ∧
    (∀ (w : WorkerState) (queue : List QueueEntry),
      ∃ poll_out, (worker_loop_iter period now w queue).published
        = (worker_drain period now w queue).published ++ poll_out) ∧
    (∀ (w : WorkerState) (x : ℚ) (b : Bool), 0 ≤ x →
      ∃ msg, (worker_drain period now w
          [QueueEntry.set { ovp := some (Json.num x), output_enable := some (Json.bool b) },
           QueueEntry.get]).published = w.published ++ [msg] ∧
        msg.connected = true ∧
        msg.ovp = decode_ovp (w.regs REG_MODEL) (encode_ovp (w.regs REG_MODEL) x) ∧
        msg.output_enable = b) := by
  refine ⟨?_, ?_, ?_⟩
  · intro w q1 q2
    unfold worker_drain
    exact List.foldl_append _ _ q1 q2
  · intro w queue
    unfold worker_loop_iter
    dsimp only
    by_cases hd : poll_due period (worker_drain period now w queue).last_query_time now = true
    · rw [if_pos hd]
      exact worker_process_entry_published period now _ QueueEntry.get
    · rw [if_neg hd]
      exact ⟨[], by simp⟩
  · intro w x b hx
    obtain ⟨hwrites, hok⟩ := set_state_ovp_enable w.regs x b
    have he : 0 ≤ pyInt (x * voltage_scale (w.regs REG_MODEL)) :=
      pyInt_nonneg _ (mul_nonneg hx (voltage_scale_pos _).le)
    have hw1 : worker_process_entry period now w
        (QueueEntry.set { ovp := some (Json.num x), output_enable := some (Json.bool b) })
        = { w with regs := ovp_enable_regs w.regs x b } := by
      unfold worker_process_entry
      dsimp only
      rw [hok, if_pos rfl, hwrites]
      rfl
    obtain ⟨s, hs, hmodel, hovp, _, hen, _, _, _⟩ :=
      get_state_live (ovp_enable_regs w.regs x b) w.cache now
    have hdrain : worker_drain period now w
        [QueueEntry.set { ovp := some (Json.num x), output_enable := some (Json.bool b) },
         QueueEntry.get]
        = worker_process_entry period now
            (worker_process_entry period now w
              (QueueEntry.set { ovp := some (Json.num x),
                                output_enable := some (Json.bool b) }))
            QueueEntry.get := rfl
    refine ⟨build_state_msg period s, ?_, rfl, ?_, ?_⟩
    · rw [hdrain, hw1]
      unfold worker_process_entry
      dsimp only
      rw [hs]
    · have h0 : ovp_enable_regs w.regs x b REG_MODEL = w.regs REG_MODEL := by
        simp [ovp_enable_regs, write_at, REG_MODEL, REG_OUTPUT_ENABLE, REG_M0_OVP]
      have h82 : ovp_enable_regs w.regs x b REG_M0_OVP
          = (pyInt (x * voltage_scale (w.regs REG_MODEL))).toNat := by
        simp [ovp_enable_regs, write_at, REG_OUTPUT_ENABLE, REG_M0_OVP]
      have hcast : (((pyInt (x * voltage_scale (w.regs REG_MODEL))).toNat : ℕ) : ℚ)
          = ((pyInt (x * voltage_scale (w.regs REG_MODEL)) : ℤ) : ℚ) := by
        exact_mod_cast congrArg (fun z : ℤ => (z : ℚ)) (Int.toNat_of_nonneg he)
      show (build_state_msg period s).ovp = _
      unfold build_state_msg
      dsimp only
      rw [hovp, h0, h82, hcast]
      rfl
    · have h18 : ovp_enable_regs w.regs x b REG_OUTPUT_ENABLE
          = ((if b then 1 else 0 : ℤ)).toNat := by
        simp [ovp_enable_regs, write_at]
      show (build_state_msg period s).output_enable = b
      unfold build_state_msg
      dsimp only
      rw [hen, h18]
      cases b <;> simp

/-- Witness for `worker_fifo_drain_before_poll`: the Set-then-Get scenario on
the concrete model-60301 device. -/
theorem worker_fifo_drain_before_poll_witness :
    ∃ msg, (worker_drain none 0
        ⟨preset_cex_regs, ⟨none, 0⟩, 0, [], WorkerStatus.running⟩
        [QueueEntry.set { ovp := some (Json.num 1), output_enable := some (Json.bool true) },
         QueueEntry.get]).published
        = (⟨preset_cex_regs, ⟨none, 0⟩, 0, [], WorkerStatus.running⟩ : WorkerState).published
            ++ [msg] ∧
      msg.connected = true ∧
      msg.ovp = decode_ovp (preset_cex_regs REG_MODEL)
        (encode_ovp (preset_cex_regs REG_MODEL) 1) ∧
      msg.output_enable = true :=
  (worker_fifo_drain_before_poll none 0).2.2
    ⟨preset_cex_regs, ⟨none, 0⟩, 0, [], WorkerStatus.running⟩ 1 true (by norm_num)

/-- Claim C8: a command queue holding 64 items drops a 65th enqueue without
an error (both enqueue functions are total and never block by construction);
below capacity the item is appended.  The capacity-16 onboarding queue
closes an overflow session immediately; below capacity it accepts it. -/
theorem queue_saturation_drops (q : List QueueEntry) (nq : List NewPsu) (c : NewPsu) :
    (q.length = 64 → queue_state_get q = q) ∧
    (q.length < 64 → queue_state_get q = q ++ [QueueEntry.get]) ∧
    (nq.length = 16 → psu_connected nq c = (nq, true)) ∧
    (nq.length < 16 → psu_connected nq c = (nq ++ [c], false)) := by
  refine ⟨fun h => ?_, fun h => ?_, fun h => ?_, fun h => ?_⟩
  · unfold queue_state_get put_nowait
    rw [if_pos (by omega)]
  · unfold queue_state_get put_nowait
    rw [if_neg (by omega)]
  · unfold psu_connected put_nowait
    rw [if_pos (by omega)]
  · unfold psu_connected put_nowait
    rw [if_neg (by omega)]

/-- Witness for `queue_saturation_drops` at the exact capacities. -/
theorem queue_saturation_drops_witness :
    queue_state_get (List.replicate 64 QueueEntry.get) = List.replicate 64 QueueEntry.get ∧
    psu_connected (List.replicate 16 (⟨0, "h", 0⟩ : NewPsu)) ⟨1, "h2", 1⟩
      = (List.replicate 16 ⟨0, "h", 0⟩, true) :=
  ⟨(queue_saturation_drops (List.replicate 64 QueueEntry.get)
      (List.replicate 16 ⟨0, "h", 0⟩) ⟨1, "h2", 1⟩).1 (by simp),
   (queue_saturation_drops (List.replicate 64 QueueEntry.get)
      (List.replicate 16 ⟨0, "h", 0⟩) ⟨1, "h2", 1⟩).2.2.1 (by simp)⟩

theorem lookup_all_some : ∀ (m : PSUStateMap), AllSome m →
    ∀ {identity : String} {st : PSUState},
    m.lookup identity = some st → st.update_period.isSome
  | [], _, _, _, hl => by simp [List.lookup] at hl
  | (k, v) :: rest, h, identity, st, hl => by
    simp only [List.lookup] at hl
    split at hl
    · cases hl
      exact h (k, v) (List.mem_cons_self _ _)
    · exact lookup_all_some rest (fun p hp => h p (List.mem_cons_of_mem _ hp)) hl

theorem psu_states_get_all_some (m : PSUStateMap) (identity : String) (create : Bool)
    (h : AllSome m) : AllSome (psu_states_get m identity create).1 := by
  unfold psu_states_get
  cases hl : m.lookup identity with
  | some st => exact h
  | none =>
    cases create with
    | true =>
      intro p hp
      rcases List.mem_append.mp hp with hm | hm
      · exact h p hm
      · simp at hm
        rw [hm]
        rfl
    | false => exact h

/-- Claim C10: a fresh `PSUState` has `update_period = 0`, never `None`; on
any state map satisfying that invariant (which creation and every update
preserve), the onboarding default-assignment branch never fires — the
resulting map is the lazily-created map itself, independent of the
configured default. -/
theorem default_period_never_applied :
    mkPSUState.update_period = some 0 ∧
    (∀ m identity create, AllSome m → AllSome (psu_states_get m identity create).1) ∧
    (∀ m identity d, AllSome m →
      apply_default_period m identity d = (psu_states_get m identity true).1) := by
  refine ⟨rfl, psu_states_get_all_some, ?_⟩
  intro m identity d h
  unfold apply_default_period psu_states_get
  cases hl : m.lookup identity with
  | some st =>
    dsimp only
    rw [if_neg]
    intro hnone
    have := lookup_all_some m h hl
    rw [hnone] at this
    exact absurd this (by simp)
  | none =>
    dsimp only
    rw [if_pos rfl]
    dsimp only
    rw [if_neg (by simp [mkPSUState])]

/-- Witness for `default_period_never_applied` on a one-entry map: the
default 7 is not applied. -/
theorem default_period_never_applied_witness :
    apply_default_period [("60301_99", mkPSUState)] "60301_99" 7
      = (psu_states_get [("60301_99", mkPSUState)] "60301_99" true).1 :=
  default_period_never_applied.2.2 [("60301_99", mkPSUState)] "60301_99" 7
    (by
      intro p hp
      simp at hp
      rw [hp]
      rfl)

/-- Claim C6: when the payload carries a numeric `period` and the identity
has a persistent state, the stored `update_period` is updated the same way
whatever the connection state: 0 stays 0 (and disables polling — the
worker's poll-due test is then never true), any nonzero value is clamped to
at least 0.1 s. -/
theorem period_update_clamped (states : PSUStateMap) (pending : List String)
    (connected : Bool) (queue : List QueueEntry) (identity : String)
    (payload : SetPayload) (q : ℚ)
    (hq : payload.period = some (Json.num q))
    (hex : (states.lookup identity).isSome) :
    (handle_state_set states pending connected queue identity payload).states
      = update_state states identity
          { update_period := some (if q ≠ 0 then max q (1/10) else q) } ∧
    (q ≠ 0 → (1 : ℚ)/10 ≤ (if q ≠ 0 then max q (1/10) else q)) ∧
    (∀ lqt now : ℚ, poll_due (some 0) lqt now = false) := by
  refine ⟨?_, ?_, ?_⟩
  · obtain ⟨st, hst⟩ := Option.isSome_iff_exists.mp hex
    unfold handle_state_set psu_states_get
    rw [hq, hst]
    dsimp only
    cases connected
    · rfl
    · rw [if_pos rfl]
      split <;> rfl
  · intro hq0
    rw [if_pos hq0]
    exact le_max_right _ _
  · intro lqt now
    simp [poll_due]

/-- Witness for `period_update_clamped`: a disconnected identity whose
persistent state exists gets its period updated (clamped to 0.1). -/
theorem period_update_clamped_witness :
    (handle_state_set [("60301_99", mkPSUState)] [] false []
        "60301_99" { period := some (Json.num (1/100)) }).states
      = update_state [("60301_99", mkPSUState)] "60301_99"
          { update_period := some (if (1:ℚ)/100 ≠ 0 then max ((1:ℚ)/100) (1/10) else 1/100) } ∧
    ((1:ℚ)/100 ≠ 0 → (1 : ℚ)/10 ≤ (if (1:ℚ)/100 ≠ 0 then max ((1:ℚ)/100) (1/10) else 1/100)) ∧
    (∀ lqt now : ℚ, poll_due (some 0) lqt now = false) :=
  period_update_clamped [("60301_99", mkPSUState)] [] false [] "60301_99"
    { period := some (Json.num (1/100)) } (1/100) rfl (by rfl)

/-- Claim C9 as stated fails: a debounce task cancelled during its delay
never reaches the `discard`, so the identity stays in the pending set —
there is no guaranteed-run cleanup path in the source. -/
theorem debounce_cleanup_cex :
    "60181_5555" ∈ (delayed_state_query ["60181_5555"] [] "60181_5555" true).1 ∧
    (delayed_state_query ["60181_5555"] [] "60181_5555" true).1 = ["60181_5555"] := by
  constructor
  · simp [delayed_state_query]
  · rfl

/-- Claim C9, amended: a debounce task that runs to completion queues one
re-query and clears its identity's rate-limit marker, so a new delayed
re-query can be scheduled; but a task cancelled during its delay leaves
both the pending set and the queue untouched (the marker stays set). -/
theorem debounce_cleanup_amended (pending : List String) (queue : List QueueEntry)
    (identity : String) :
    identity ∉ (delayed_state_query pending queue identity false).1 ∧
    (delayed_state_query pending queue identity false).2 = queue_state_get queue ∧
    delayed_state_query pending queue identity true = (pending, queue) := by
  refine ⟨?_, rfl, rfl⟩
  intro hmem
  unfold delayed_state_query at hmem
  rw [if_neg (by simp)] at hmem
  have := (List.mem_filter.mp hmem).2
  simp at this

/-- Claim C3 as stated fails: removing a disconnected device's worker leaves
its identity in the pending re-query (debounce) set and publishes nothing. -/
theorem disconnect_cleanup_cex :
    (psu_disconnected ⟨[⟨"60181_1", 7⟩], ["60181_1"], ["60181_1"], [], []⟩ 7).pending_state_queries
      = ["60181_1"] ∧
    (psu_disconnected ⟨[⟨"60181_1", 7⟩], ["60181_1"], ["60181_1"], [], []⟩ 7).published
      = [] ∧
    (psu_disconnected ⟨[⟨"60181_1", 7⟩], ["60181_1"], ["60181_1"], [], []⟩ 7).psus
      = [] := by
  refine ⟨rfl, rfl, rfl⟩

/-- Claim C3, amended: on removal the matching worker is cancelled, deleted
from the map and its firmware-discovery flag cleared; the debounce state is
not cleared and no message is published.  A `{connected:false,
period:<last known>}` status is only produced later, in reply to a
`state/get` for the disconnected identity. -/
theorem disconnect_cleanup_amended (st : OrchState) (client : ℕ)
    (p : WorkerHandle) (hfind : st.psus.find? (fun q => q.client = client) = some p) :
    (psu_disconnected st client).psus
      = st.psus.filter (fun q => q.identity ≠ p.identity) ∧
    (psu_disconnected st client).cancelled = p.identity :: st.cancelled ∧
    (psu_disconnected st client).firmware_version_updated
      = st.firmware_version_updated.filter (fun i => i ≠ p.identity) ∧
    (psu_disconnected st client).pending_state_queries = st.pending_state_queries ∧
    (psu_disconnected st client).published = st.published ∧
    (∀ (states : PSUStateMap) (s : PSUState),
      states.lookup p.identity = some s →
      handle_state_get_status states false p.identity = (false, s.update_period)) := by
  unfold psu_disconnected
  rw [hfind]
  refine ⟨rfl, rfl, rfl, rfl, rfl, ?_⟩
  intro states s hl
  unfold handle_state_get_status psu_states_get
  rw [hl]

/-- Witness for `disconnect_cleanup_amended` at a concrete state. -/
theorem disconnect_cleanup_amended_witness :
    (psu_disconnected ⟨[⟨"60181_1", 7⟩], ["60181_1"], ["60181_1"], [], []⟩ 7).pending_state_queries
      = ["60181_1"] ∧
    handle_state_get_status [("60181_1", mkPSUState)] false "60181_1" = (false, some 0) := by
  obtain ⟨_, _, _, hpend, _, hstat⟩ :=
    disconnect_cleanup_amended ⟨[⟨"60181_1", 7⟩], ["60181_1"], ["60181_1"], [], []⟩ 7
      ⟨"60181_1", 7⟩ (by rfl)
  exact ⟨hpend, hstat [("60181_1", mkPSUState)] mkPSUState (by rfl)⟩

/-- Claim C4 as stated fails on its read count: a cache-miss resolution
performs one full `get_state`, which issues three register reads (the
42-register state block carrying model+serial+firmware, the M0 OVP/OCP
pair, and the 36-register preset block) — not exactly one. -/
theorem identity_resolution_reads_cex :
    (psu_onboard 21600 [] "192.168.0.7" 0 (session_of preset_cex_regs)).reads
      = [(REG_MODEL, STATE_READ_COUNT), (REG_M0_OVP, 2), (REG_M1_V, PRESET_READ_COUNT)] ∧
    (psu_onboard 21600 [] "192.168.0.7" 0 (session_of preset_cex_regs)).reads.length = 3 ∧
    ¬ (psu_onboard 21600 [] "192.168.0.7" 0 (session_of preset_cex_regs)).reads.length = 1 := by
  obtain ⟨s, hs, _, _, _, _, _, _, hreads⟩ := get_state_live preset_cex_regs ⟨none, 0⟩ 0
  have hr : (psu_onboard 21600 [] "192.168.0.7" 0 (session_of preset_cex_regs)).reads
      = [(REG_MODEL, STATE_READ_COUNT), (REG_M0_OVP, 2), (REG_M1_V, PRESET_READ_COUNT)] := by
    unfold psu_onboard cached_identity
    dsimp only [List.lookup]
    rw [hs]
    dsimp only
    rw [hreads, if_pos (show RefreshDue ⟨none, 0⟩ 0 from Or.inr rfl)]
  refine ⟨hr, by rw [hr]; rfl, by rw [hr]; simp⟩

/-- Claim C4, amended: a cache entry fresh within the TTL is reused with
zero register reads (and the timestamp refreshed); otherwise resolution
performs exactly one state query — three register block reads against a
live device — and forms the identity `model_serial`; on query failure the
session is closed, no worker is created and the cache is left unchanged. -/
theorem identity_resolution_amended (ttl : ℚ) (cache : IdentityCache) (host : String)
    (now : ℚ) (session : Session) :
    (∀ identity, cached_identity ttl cache host now = some identity →
      psu_onboard ttl cache host now session
        = ⟨update_cache cache host (identity, now), some identity, false, []⟩) ∧
    (cached_identity ttl cache host now = none →
      (get_state session ⟨none, 0⟩ now).state = none →
      psu_onboard ttl cache host now session
        = ⟨cache, none, true, (get_state session ⟨none, 0⟩ now).reads⟩) ∧
    (∀ s, cached_identity ttl cache host now = none →
      (get_state session ⟨none, 0⟩ now).state = some s →
      psu_onboard ttl cache host now session
        = ⟨update_cache cache host (toString s.model ++ "_" ++ toString s.serial_no, now),
           some (toString s.model ++ "_" ++ toString s.serial_no), false,
           (get_state session ⟨none, 0⟩ now).reads⟩) ∧
    (∀ d : Regs, cached_identity ttl cache host now = none →
      (psu_onboard ttl cache host now (session_of d)).reads.length = 3) := by
  refine ⟨?_, ?_, ?_, ?_⟩
  · intro identity hc
    unfold psu_onboard
    rw [hc]
  · intro hc hfail
    unfold psu_onboard
    rw [hc]
    dsimp only
    rw [hfail]
  · intro s hc hok
    unfold psu_onboard
    rw [hc]
    dsimp only
    rw [hok]
  · intro d hc
    obtain ⟨s, hs, _, _, _, _, _, _, hreads⟩ := get_state_live d ⟨none, 0⟩ now
    unfold psu_onboard
    rw [hc]
    dsimp only
    rw [hs]
    dsimp only
    rw [hreads, if_pos (show RefreshDue ⟨none, 0⟩ now from Or.inr rfl)]
    rfl

/-- Witness for `identity_resolution_amended`: a fresh cache entry is reused
with zero reads, and a cache-miss resolution against the live model-60301
device issues three reads. -/
theorem identity_resolution_amended_witness :
    psu_onboard 10 [("h", ("60301_99", 0))] "h" 5 dead_session
      = ⟨update_cache [("h", ("60301_99", 0))] "h" ("60301_99", 5),
         some "60301_99", false, []⟩ ∧
    (psu_onboard 10 [] "h" 5 (session_of preset_cex_regs)).reads.length = 3 := by
  refine ⟨?_, ?_⟩
  · exact (identity_resolution_amended 10 [("h", ("60301_99", 0))] "h" 5 dead_session).1
      "60301_99" (by norm_num [cached_identity, List.lookup])
  · exact (identity_resolution_amended 10 [] "h" 5
      (session_of preset_cex_regs)).2.2.2 preset_cex_regs rfl
